import Mathlib

/-!
Verification of the GooseTourDates reconciliation core.

The definitions below are a shallow embedding of the TypeScript sources:
`src/scraper.ts` (the `Concert` record shape and the per-element extraction
inside `scrapeTourDates`), `src/database.ts` (`getConcerts`), and
`src/bot.ts` (`checkTours`'s new-concert filter and sort, and
`postConcerts`'s announcement loop).
-/

namespace GooseTourDates

/-- The `Concert` record of `src/scraper.ts`: `venue`, `location`, `date`,
each a plain string (`date` is whatever text the source page carried). -/
structure Concert where
  venue : String
  location : String
  date : String
deriving DecidableEq, Repr

/-- Whether `y` is a leap year in the proleptic Gregorian calendar used by
JavaScript `Date` UTC accessors. -/
def isLeap (y : Nat) : Bool :=
  (y % 4 == 0 && y % 100 != 0) || y % 400 == 0

/-- Number of days in month `m` (1-based) of year `y`, as validated by the
JavaScript ISO date parser. -/
def daysInMonth (y m : Nat) : Nat :=
  if m == 2 then (if isLeap y then 29 else 28)
  else if m == 4 || m == 6 || m == 9 || m == 11 then 30
  else 31

/-- Numeric value of a decimal digit character, `none` for any other
character. -/
def digitVal (c : Char) : Option Nat :=
  if c.isDigit then some (c.toNat - 48) else none

/-- Models `new Date(s)` as used in `checkTours` (`src/bot.ts` lines 93/95),
restricted to ISO `YYYY-MM-DD` date-only strings (exactly ten characters:
four digits, a dash, two digits, a dash, two digits, with in-range month
and day): such a string yields a valid `Date` whose
`getUTCFullYear`/`getUTCMonth`/`getUTCDate` are exactly the parsed year,
month and day; any other string is treated as producing an Invalid Date
(all UTC components `NaN`), represented here by `none`.

This model is faithful on two regions only: strings in the exact
`YYYY-MM-DD` shape (which ECMA-262 parses to UTC midnight with exactly
these UTC components) and strings real JavaScript also fails to parse.
ECMA-262 additionally mandates parses this model does not cover (e.g.
`2025-05-01T00:00:00Z`, `2025-05`, `2025`), and V8 accepts further
fallback formats; theorems whose truth depends on date parsing therefore
either hypothesize that the dates involved are in the `YYYY-MM-DD` shape
(`(parseDate _).isSome`) or concern strings that are unparseable in
JavaScript as well. -/
def parseDate (s : String) : Option (Nat × Nat × Nat) :=
  match s.data with
  | [y1, y2, y3, y4, s1, m1, m2, s2, d1, d2] =>
    if s1 == '-' && s2 == '-' then
      match digitVal y1, digitVal y2, digitVal y3, digitVal y4,
            digitVal m1, digitVal m2, digitVal d1, digitVal d2 with
      | some a, some b, some c, some d, some e, some f, some g, some h =>
        let yn := 1000 * a + 100 * b + 10 * c + d
        let mn := 10 * e + f
        let dn := 10 * g + h
        if 1 ≤ mn ∧ mn ≤ 12 ∧ 1 ≤ dn ∧ dn ≤ daysInMonth yn mn then
          some (yn, mn, dn)
        else none
      | _, _, _, _, _, _, _, _ => none
    else none
  | _ => none

/-- The date comparison of `src/bot.ts` lines 96-99: equality of the
`getUTCFullYear`, `getUTCMonth` and `getUTCDate` triples of the two parsed
dates.  An Invalid Date has `NaN` components and `NaN === NaN` is false in
JavaScript, so an unparseable string compares unequal to everything,
itself included. -/
def sameUTCDay (a b : String) : Bool :=
  match parseDate a, parseDate b with
  | some x, some y => x == y
  | _, _ => false

/-- The match predicate inside the `some` callback of `src/bot.ts`
lines 94-100: raw `===` equality of venue strings, conjoined with the
UTC-day comparison of the two dates. -/
def concertMatches (saved sc : Concert) : Bool :=
  saved.venue == sc.venue && sameUTCDay saved.date sc.date

/-- The new-concert filter of `src/bot.ts` lines 92-101: keep each scraped
concert for which no saved concert matches. -/
def newConcerts (scraped saved : List Concert) : List Concert :=
  scraped.filter (fun sc => ! saved.any (fun s => concertMatches s sc))

/-- An integer key whose order on parsed dates coincides with the order of
`new Date(s).getTime()` for date-only ISO strings (UTC midnight
timestamps): both are strictly monotone in the lexicographic order of
`(year, month, day)`, using that `month ≤ 12 < 32` and `day ≤ 31 < 32`. -/
def dateKey (s : String) : Option Nat :=
  (parseDate s).map (fun t => t.1 * 416 + t.2.1 * 32 + t.2.2)

/-- The comparator of `src/bot.ts` line 104,
`(a, b) => new Date(a.date).getTime() - new Date(b.date).getTime()`,
read as a strict "a sorts before b" test: the difference is negative
exactly when both timestamps are numbers and `a`'s is smaller.  When
either date is invalid the difference is `NaN`, which the sort treats as
`+0` (equal), so it is not a strict precedence. -/
def dateLt (a b : Concert) : Bool :=
  match dateKey a.date, dateKey b.date with
  | some x, some y => decide (x < y)
  | _, _ => false

/-- Stable insertion of `a` into `l`: `a` is placed before the first
element it strictly precedes, hence after every element that compares
equal to it. -/
def insertConcert (a : Concert) : List Concert → List Concert
  | [] => [a]
  | b :: l => if dateLt a b then a :: b :: l else b :: insertConcert a l

/-- Models `newConcerts.sort(comparator)` of `src/bot.ts` line 104.
When every date in the batch parses, the comparator is consistent and
ECMA-262 mandates the unique stable sorted order, which this stable
insertion sort by the strict comparator realizes exactly.  When some
date is unparseable the `NaN`-returning comparator is inconsistent and
ECMA-262 leaves the order implementation-defined; this definition then
picks one admissible outcome, so on such batches only its
order-insensitive consequences (membership, length, permutation,
emptiness) are faithful to the program, and the theorems below rely only
on those there. -/
def sortConcerts (l : List Concert) : List Concert :=
  l.foldl (fun acc a => insertConcert a acc) []

/-- The reconciliation performed by `checkTours` (`src/bot.ts`
lines 92-104): filter the scraped concerts against the saved ones, then
sort the result by date. -/
def checkToursNew (scraped saved : List Concert) : List Concert :=
  sortConcerts (newConcerts scraped saved)

/-- The error raised by the Supabase client when the `concerts` table
read fails (`src/database.ts` lines 25-28). -/
inductive StoreError
  | unavailable
deriving DecidableEq, Repr

/-- `DatabaseService.getConcerts` (`src/database.ts` lines 19-32): on a
store error it logs and returns the empty list; it never propagates the
error to the caller. -/
def getConcerts : Except StoreError (List Concert) → List Concert
  | Except.ok data => data
  | Except.error _ => []

/-- The concerts that one `checkTours` run (`src/bot.ts` lines 85-114)
classifies as new, persists via `saveConcerts`, and passes to
`postConcerts`, as a function of the scrape result and the store read
result. -/
def checkToursRun (scraped : List Concert)
    (store : Except StoreError (List Concert)) : List Concert :=
  checkToursNew scraped (getConcerts store)

/-- The error raised when `channel.send` rejects inside `postConcerts`. -/
inductive DeliveryError
  | failed
deriving DecidableEq, Repr

/-- The announcement loop of `postConcerts` (`src/bot.ts` lines 145-173):
each concert is sent in order with `await channel.send(...)` and no
per-iteration error handling, so the first rejection propagates out of the
loop.  Returns the concerts successfully announced together with the
error, if any, that aborted the loop. -/
def postConcerts (send : Concert → Except DeliveryError Unit) :
    List Concert → List Concert × Option DeliveryError
  | [] => ([], none)
  | c :: rest =>
    match send c with
    | Except.ok _ =>
      let r := postConcerts send rest
      (c :: r.1, r.2)
    | Except.error e => ([], some e)

/-- A raw `.event-listings-element` DOM node as read by the
`page.evaluate` callback of `src/scraper.ts` lines 43-58: each field is
the trimmed `textContent` of the corresponding selector when the node
exists (`?.textContent?.trim()`), absent otherwise. -/
structure RawEvent where
  time : Option String
  venueName : Option String
  location : Option String
deriving DecidableEq, Repr

/-- Models JavaScript `String.prototype.trim`: the string with leading and
trailing whitespace characters removed. -/
def trimString (s : String) : String :=
  String.mk (((s.data.dropWhile Char.isWhitespace).reverse.dropWhile
    Char.isWhitespace).reverse)

/-- The `?.textContent?.trim() ?? ''` expression: the trimmed text when
present, the empty string otherwise. -/
def extractField (o : Option String) : String :=
  (o.map trimString).getD ""

/-- The extraction loop of `src/scraper.ts` lines 47-55: a concert is
pushed only when its venue, location and date strings are all non-empty
(JavaScript string truthiness in `if (venue && location && date)`). -/
def scrapeConcerts (elements : List RawEvent) : List Concert :=
  elements.filterMap (fun e =>
    let date := extractField e.time
    let venue := extractField e.venueName
    let location := extractField e.location
    if venue != "" && location != "" && date != "" then
      some ⟨venue, location, date⟩
    else none)

/-- ASCII lower-casing of a character, on character codes: uppercase
letters are shifted to their lowercase counterparts, everything else is
unchanged. -/
def lowerCode (c : Char) : Nat :=
  if 'A' ≤ c ∧ c ≤ 'Z' then c.toNat + 32 else c.toNat

/-- The venue comparison the specification prescribes for the matching
rule: equality after trimming surrounding whitespace, case-insensitively
(ASCII case folding). -/
def specVenueEq (a b : String) : Bool :=
  (trimString a).data.map lowerCode == (trimString b).data.map lowerCode

/-- Strict lexicographic order on character sequences by character code,
used for the specification's venue-name tie-break. -/
def lexLtCodes : List Char → List Char → Bool
  | [], [] => false
  | [], _ :: _ => true
  | _ :: _, [] => false
  | a :: as, b :: bs =>
    if a.toNat < b.toNat then true
    else if b.toNat < a.toNat then false
    else lexLtCodes as bs

/-- The output ordering the specification prescribes: ascending by date,
ties (equal dates) broken by venue name lexicographically. -/
def specLe (a b : Concert) : Bool :=
  dateLt a b || (!dateLt a b && !dateLt b a &&
    (lexLtCodes a.venue.data b.venue.data || a.venue == b.venue))

/-- Whether a list is sorted in the specification's order: each adjacent
pair ascending by date with venue-lexicographic tie-break. -/
def specSortedByDateThenVenue : List Concert → Bool
  | [] => true
  | [_] => true
  | a :: b :: l => specLe a b && specSortedByDateThenVenue (b :: l)

end GooseTourDates

namespace GooseTourDates

theorem mem_insertConcert {a b : Concert} {l : List Concert} :
    b ∈ insertConcert a l ↔ b = a ∨ b ∈ l := by
  induction l with
  | nil => simp [insertConcert]
  | cons c l ih =>
    simp only [insertConcert]
    split
    · simp
    · simp [ih]
      tauto

theorem mem_foldl_insertConcert {b : Concert} (l : List Concert) (acc : List Concert) :
    b ∈ List.foldl (fun acc a => insertConcert a acc) acc l ↔ b ∈ acc ∨ b ∈ l := by
  induction l generalizing acc with
  | nil => simp
  | cons c l ih =>
    simp only [List.foldl_cons, ih, mem_insertConcert, List.mem_cons]
    tauto

theorem mem_sortConcerts {b : Concert} {l : List Concert} :
    b ∈ sortConcerts l ↔ b ∈ l := by
  simp [sortConcerts, mem_foldl_insertConcert]

theorem length_insertConcert (a : Concert) (l : List Concert) :
    (insertConcert a l).length = l.length + 1 := by
  induction l with
  | nil => rfl
  | cons c l ih =>
    simp only [insertConcert]
    split <;> simp [ih]

theorem length_sortConcerts (l : List Concert) :
    (sortConcerts l).length = l.length := by
  suffices h : ∀ acc, (List.foldl (fun acc a => insertConcert a acc) acc l).length
      = acc.length + l.length by
    simpa using h []
  induction l with
  | nil => simp
  | cons c l ih =>
    intro acc
    simp only [List.foldl_cons, ih, length_insertConcert, List.length_cons]
    omega

theorem dateLt_asymm {a b : Concert} (h : dateLt a b = true) : dateLt b a = false := by
  unfold dateLt at *
  cases ha : dateKey a.date <;> cases hb : dateKey b.date <;>
    simp [ha, hb] at h ⊢
  omega

theorem dateLt_trans_left {a b c : Concert}
    (hca : dateLt c a = true) (hab : dateLt a b = true) : dateLt c b = true := by
  unfold dateLt at *
  cases ha : dateKey a.date <;> cases hb : dateKey b.date <;>
    cases hc : dateKey c.date <;> simp [ha, hb, hc] at hca hab ⊢
  omega

theorem pairwise_insertConcert {a : Concert} {l : List Concert}
    (h : l.Pairwise (fun x y => dateLt y x = false)) :
    (insertConcert a l).Pairwise (fun x y => dateLt y x = false) := by
  induction l with
  | nil => simp [insertConcert]
  | cons b l ih =>
    rcases List.pairwise_cons.mp h with ⟨hb, hl⟩
    simp only [insertConcert]
    split
    · rename_i hab
      refine List.pairwise_cons.mpr ⟨?_, h⟩
      intro c hc
      rcases List.mem_cons.mp hc with rfl | hcl
      · exact dateLt_asymm hab
      · by_contra hcon
        have hca : dateLt c a = true := by
          revert hcon; cases dateLt c a <;> simp
        have : dateLt c b = true := dateLt_trans_left hca hab
        rw [hb c hcl] at this
        exact Bool.false_ne_true this
    · rename_i hab
      refine List.pairwise_cons.mpr ⟨?_, ih hl⟩
      intro c hc
      rcases mem_insertConcert.mp hc with rfl | hcl
      · simpa using hab
      · exact hb c hcl

theorem pairwise_sortConcerts (l : List Concert) :
    (sortConcerts l).Pairwise (fun x y => dateLt y x = false) := by
  suffices h : ∀ acc : List Concert, acc.Pairwise (fun x y => dateLt y x = false) →
      (List.foldl (fun acc a => insertConcert a acc) acc l).Pairwise
        (fun x y => dateLt y x = false) by
    exact h [] (List.Pairwise.nil)
  induction l with
  | nil => intro acc hacc; simpa using hacc
  | cons c l ih =>
    intro acc hacc
    exact ih _ (pairwise_insertConcert hacc)

theorem concertMatches_refl {c : Concert} (h : (parseDate c.date).isSome = true) :
    concertMatches c c = true := by
  unfold concertMatches sameUTCDay
  cases hp : parseDate c.date with
  | none => rw [hp] at h; simp at h
  | some t => simp [hp]

end GooseTourDates

namespace GooseTourDates

theorem concertMatches_eq_true_iff {s sc : Concert} :
    concertMatches s sc = true ↔
      s.venue = sc.venue ∧ sameUTCDay s.date sc.date = true := by
  simp [concertMatches]

theorem mem_newConcerts {scraped saved : List Concert} {sc : Concert} :
    sc ∈ newConcerts scraped saved ↔
      sc ∈ scraped ∧ ∀ s ∈ saved, ¬(s.venue = sc.venue ∧ sameUTCDay s.date sc.date = true) := by
  simp only [newConcerts, List.mem_filter, Bool.not_eq_true', List.any_eq_false,
    concertMatches_eq_true_iff]

end GooseTourDates

namespace GooseTourDates

/-- Fetched record for the C1 counterexample: upper-case venue spelling. -/
def fillmoreUpper : Concert := ⟨"FILLMORE", "San Francisco", "2025-05-01"⟩

/-- Known record for the C1 counterexample: lower-case spelling of the
same venue, same calendar date. -/
def fillmoreLower : Concert := ⟨"fillmore", "San Francisco", "2025-05-01"⟩

/-- C1 counterexample: a fetched and a known record whose venues are
equal case-insensitively after trimming and whose dates are the same
calendar day are nevertheless NOT classified as the same event by
`checkTours` — the fetched record comes out as new, because the code
compares venues with raw `===`. -/
theorem c1_counterexample :
    specVenueEq fillmoreUpper.venue fillmoreLower.venue = true ∧
    sameUTCDay fillmoreUpper.date fillmoreLower.date = true ∧
    checkToursNew [fillmoreUpper] [fillmoreLower] = [fillmoreUpper] := by
  decide

theorem sameUTCDay_iff_of_isSome {a b : String} (ha : (parseDate a).isSome = true)
    (hb : (parseDate b).isSome = true) :
    sameUTCDay a b = true ↔ parseDate a = parseDate b := by
  unfold sameUTCDay
  cases hpa : parseDate a with
  | none => rw [hpa] at ha; simp at ha
  | some x =>
    cases hpb : parseDate b with
    | none => rw [hpb] at hb; simp at hb
    | some y => simp

/-- C1 (amended): restricted to records whose date strings are
`YYYY-MM-DD` calendar-date strings — the region where the embedded date
parser agrees exactly with JavaScript `new Date` — the reconciliation in
`checkTours` classifies a fetched record as already known (not new)
exactly when some known record has a venue string equal by raw
case-sensitive, untrimmed string equality AND the same parsed calendar
day; equivalently, such a fetched record is in the new-concert output iff
no known record passes that raw-venue-and-same-day test.  Venue
comparison is not case-insensitive and not whitespace-trimmed. -/
theorem c1_matching_characterization (scraped saved : List Concert) (sc : Concert)
    (hsc : (parseDate sc.date).isSome = true)
    (hsaved : ∀ s ∈ saved, (parseDate s.date).isSome = true) :
    sc ∈ checkToursNew scraped saved ↔
      sc ∈ scraped ∧
        ∀ s ∈ saved, ¬(s.venue = sc.venue ∧ parseDate s.date = parseDate sc.date) := by
  rw [checkToursNew, mem_sortConcerts, mem_newConcerts]
  constructor
  · rintro ⟨h1, h2⟩
    refine ⟨h1, fun s hss ⟨hv, hd⟩ => h2 s hss ⟨hv, ?_⟩⟩
    exact (sameUTCDay_iff_of_isSome (hsaved s hss) hsc).mpr hd
  · rintro ⟨h1, h2⟩
    refine ⟨h1, fun s hss ⟨hv, hd⟩ => h2 s hss ⟨hv, ?_⟩⟩
    exact (sameUTCDay_iff_of_isSome (hsaved s hss) hsc).mp hd

/-- C1 witness: the amended characterization applied to a concrete
fetched record with a valid ISO date against a known set with a valid ISO
date and a different venue/day, concluding the record is new. -/
theorem c1_matching_witness :
    (⟨"9:30 Club", "Washington", "2025-06-10"⟩ : Concert) ∈
      checkToursNew [(⟨"9:30 Club", "Washington", "2025-06-10"⟩ : Concert)]
        [(⟨"Fillmore", "San Francisco", "2025-05-01"⟩ : Concert)] :=
  (c1_matching_characterization
      [(⟨"9:30 Club", "Washington", "2025-06-10"⟩ : Concert)]
      [(⟨"Fillmore", "San Francisco", "2025-05-01"⟩ : Concert)]
      (⟨"9:30 Club", "Washington", "2025-06-10"⟩ : Concert)
      (by decide) (by decide)).mpr ⟨by decide, by decide⟩

/-- Fetched record with an unparseable date for the C2 counterexample. -/
def unsureDateConcert : Concert := ⟨"Great Hall", "Toronto", "TBD"⟩

/-- C2 counterexample: with a fetched record whose date string does not
parse, reconciling the fetched batch against the union of the (empty)
known set and the first reconciliation's result is NOT empty — the same
record is classified as new again. -/
theorem c2_counterexample :
    checkToursNew [unsureDateConcert]
      ([] ++ checkToursNew [unsureDateConcert] []) = [unsureDateConcert] := by
  decide

/-- C2 (amended): provided every fetched record's date string parses as a
valid calendar date, running the reconciliation twice in immediate
succession yields no new events the second time:
reconciling `fetched` against `known ++ Reconciler(fetched, known)`
returns the empty sequence. -/
theorem c2_idempotent_of_valid_dates (fetched known : List Concert)
    (h : ∀ c ∈ fetched, (parseDate c.date).isSome = true) :
    checkToursNew fetched (known ++ checkToursNew fetched known) = [] := by
  have hfilter : newConcerts fetched (known ++ checkToursNew fetched known) = [] := by
    rw [newConcerts, List.filter_eq_nil_iff]
    intro c hc
    simp only [Bool.not_eq_true', Bool.not_eq_false, List.any_eq_true]
    by_cases hk : known.any (fun s => concertMatches s c) = true
    · obtain ⟨s, hs, hm⟩ := List.any_eq_true.mp hk
      exact ⟨s, List.mem_append_left _ hs, hm⟩
    · have hkf : known.any (fun s => concertMatches s c) = false := by
        revert hk; cases known.any (fun s => concertMatches s c) <;> simp
      have hmem : c ∈ newConcerts fetched known :=
        List.mem_filter.mpr ⟨hc, by simp [hkf]⟩
      have hmem' : c ∈ checkToursNew fetched known :=
        mem_sortConcerts.mpr hmem
      exact ⟨c, List.mem_append_right _ hmem', concertMatches_refl (h c hc)⟩
  rw [checkToursNew, hfilter]
  rfl

/-- C2 witness: a concrete batch with a valid ISO date on which the
amended idempotence theorem applies. -/
theorem c2_idempotent_witness :
    checkToursNew [(⟨"Ryman Auditorium", "Nashville", "2025-09-17"⟩ : Concert)]
      ([] ++ checkToursNew [(⟨"Ryman Auditorium", "Nashville", "2025-09-17"⟩ : Concert)] [])
      = [] :=
  c2_idempotent_of_valid_dates
    [(⟨"Ryman Auditorium", "Nashville", "2025-09-17"⟩ : Concert)] [] (by decide)

/-- Known record with an unparseable date for the C3 counterexample. -/
def badDateKnown : Concert := ⟨"Civic Center", "Denver", "not-a-date"⟩

/-- C3 counterexample: reconciling a known set against itself is NOT
always empty — a stored record whose date string does not parse is
classified as new again even though the identical record is known. -/
theorem c3_counterexample :
    checkToursNew [badDateKnown] [badDateKnown] = [badDateKnown] := by
  decide

/-- C3 (amended): provided every record's date string parses as a valid
calendar date, reconciling `known` against itself returns the empty
sequence — nothing already known is re-announced. -/
theorem c3_self_reconcile_of_valid_dates (known : List Concert)
    (h : ∀ c ∈ known, (parseDate c.date).isSome = true) :
    checkToursNew known known = [] := by
  have hfilter : newConcerts known known = [] := by
    rw [newConcerts, List.filter_eq_nil_iff]
    intro c hc
    simp only [Bool.not_eq_true', Bool.not_eq_false, List.any_eq_true]
    exact ⟨c, hc, concertMatches_refl (h c hc)⟩
  rw [checkToursNew, hfilter]
  rfl

/-- C3 witness: the amended self-reconciliation theorem applied to a
concrete known set with valid ISO dates. -/
theorem c3_self_reconcile_witness :
    checkToursNew
      [(⟨"The Gorge", "George, WA", "2025-07-04"⟩ : Concert),
       (⟨"Radio City", "New York", "2025-10-31"⟩ : Concert)]
      [(⟨"The Gorge", "George, WA", "2025-07-04"⟩ : Concert),
       (⟨"Radio City", "New York", "2025-10-31"⟩ : Concert)] = [] :=
  c3_self_reconcile_of_valid_dates
    [(⟨"The Gorge", "George, WA", "2025-07-04"⟩ : Concert),
     (⟨"Radio City", "New York", "2025-10-31"⟩ : Concert)] (by decide)

end GooseTourDates

namespace GooseTourDates

theorem perm_insertConcert (a : Concert) (l : List Concert) :
    (insertConcert a l).Perm (a :: l) := by
  induction l with
  | nil => exact List.Perm.refl _
  | cons b l ih =>
    simp only [insertConcert]
    split
    · exact List.Perm.refl _
    · exact (List.Perm.cons b ih).trans (List.Perm.swap a b l)

theorem perm_sortConcerts (l : List Concert) : (sortConcerts l).Perm l := by
  suffices h : ∀ acc : List Concert,
      (List.foldl (fun acc a => insertConcert a acc) acc l).Perm (acc ++ l) by
    simpa using h []
  induction l with
  | nil => intro acc; simp
  | cons c l ih =>
    intro acc
    refine (ih (insertConcert c acc)).trans ?_
    refine (List.Perm.append_right l (perm_insertConcert c acc)).trans ?_
    exact List.perm_middle.symm

/-- First fetched record for the C4 counterexample. -/
def dupFirst : Concert := ⟨"Red Rocks", "Morrison, CO", "2025-08-20"⟩

/-- Second fetched record for the C4 counterexample: same identity (same
venue, same calendar date) as the first but a different `location`. -/
def dupSecond : Concert := ⟨"Red Rocks", "Morrison", "2025-08-20"⟩

/-- C4 counterexample: a fetched batch with two records sharing the same
identity is NOT coalesced to a single record — reconciling it against an
empty known set returns both records, not exactly one. -/
theorem c4_counterexample :
    dupFirst.venue = dupSecond.venue ∧
    sameUTCDay dupFirst.date dupSecond.date = true ∧
    dupFirst ≠ dupSecond ∧
    (checkToursNew [dupFirst, dupSecond] []).length = 2 := by
  decide

/-- C4 (amended): the reconciler performs no within-batch coalescing at
all: against an empty known set the filter keeps every fetched record,
duplicates included, and the output has exactly the length of the fetched
batch. -/
theorem c4_no_coalescing (scraped : List Concert) :
    newConcerts scraped [] = scraped ∧
    (checkToursNew scraped []).length = scraped.length := by
  have hfilter : newConcerts scraped [] = scraped := by
    simp [newConcerts]
  exact ⟨hfilter, by rw [checkToursNew, length_sortConcerts, hfilter]⟩

/-- First fetched record for the C5 counterexample: later venue name. -/
def tieLater : Concert := ⟨"Beacon Theatre", "New York", "2025-05-01"⟩

/-- Second fetched record for the C5 counterexample: alphabetically
earlier venue name, same date as the first. -/
def tieEarlier : Concert := ⟨"Apollo Theater", "New York", "2025-05-01"⟩

/-- C5 counterexample: two new records sharing the same date come out of
the reconciliation in their original fetched order, NOT ordered by venue
name lexicographically — the code's sort comparator looks only at the
date. -/
theorem c5_counterexample :
    checkToursNew [tieLater, tieEarlier] [] = [tieLater, tieEarlier] ∧
    specSortedByDateThenVenue (checkToursNew [tieLater, tieEarlier] []) = false := by
  decide

/-- C5 (amended): provided every fetched record's date string parses as a
valid calendar date — the region where the sort comparator is consistent
and ECMA-262 mandates the unique stable sorted order — the sequence of
new events is sorted ascending by date (no record is followed by one
whose timestamp is strictly smaller) and is a permutation of the filtered
fetched records; records sharing the same date are left in their fetched
order by the stable sort, with no venue tie-break.  (With an unparseable
date in the batch the comparator is inconsistent and ECMA-262 leaves the
program's output order implementation-defined, so no order is asserted
there.) -/
theorem c5_sorted_by_date (scraped saved : List Concert)
    (_h : ∀ c ∈ scraped, (parseDate c.date).isSome = true) :
    (checkToursNew scraped saved).Pairwise (fun a b => dateLt b a = false) ∧
    (checkToursNew scraped saved).Perm (newConcerts scraped saved) :=
  ⟨pairwise_sortConcerts _, perm_sortConcerts _⟩

/-- C5 witness: the amended sortedness theorem applied to a concrete
fetched batch with valid ISO dates listed in reverse chronological
order. -/
theorem c5_sorted_witness :
    (checkToursNew [(⟨"Terminal West", "Atlanta", "2025-07-02"⟩ : Concert),
        (⟨"Orange Peel", "Asheville", "2025-06-01"⟩ : Concert)] []).Pairwise
      (fun a b => dateLt b a = false) ∧
    (checkToursNew [(⟨"Terminal West", "Atlanta", "2025-07-02"⟩ : Concert),
        (⟨"Orange Peel", "Asheville", "2025-06-01"⟩ : Concert)] []).Perm
      (newConcerts [(⟨"Terminal West", "Atlanta", "2025-07-02"⟩ : Concert),
        (⟨"Orange Peel", "Asheville", "2025-06-01"⟩ : Concert)] []) :=
  c5_sorted_by_date
    [(⟨"Terminal West", "Atlanta", "2025-07-02"⟩ : Concert),
     (⟨"Orange Peel", "Asheville", "2025-06-01"⟩ : Concert)] [] (by decide)

end GooseTourDates

namespace GooseTourDates

theorem scrapeConcerts_append (l₁ l₂ : List RawEvent) :
    scrapeConcerts (l₁ ++ l₂) = scrapeConcerts l₁ ++ scrapeConcerts l₂ := by
  simp [scrapeConcerts, List.filterMap_append]

theorem scrapeConcerts_cons_malformed {e : RawEvent}
    (hbad : extractField e.venueName = "" ∨ extractField e.time = "")
    (l : List RawEvent) : scrapeConcerts (e :: l) = scrapeConcerts l := by
  simp only [scrapeConcerts, List.filterMap_cons]
  rcases hbad with h | h <;> simp [h]

theorem mem_scrapeConcerts_fields {elements : List RawEvent} {c : Concert}
    (hc : c ∈ scrapeConcerts elements) : c.venue ≠ "" ∧ c.date ≠ "" := by
  simp only [scrapeConcerts, List.mem_filterMap] at hc
  obtain ⟨e, _, hfe⟩ := hc
  split at hfe
  · rename_i hcond
    cases hfe
    simp only [Bool.and_eq_true, bne_iff_ne, ne_eq] at hcond
    exact ⟨hcond.1.1, hcond.2⟩
  · exact absurd hfe (by simp)

/-- C6: the pipeline never fails on a malformed individual record: a
scraped element whose venue or date text is missing or empty is excluded
by the extraction filter of `scrapeTourDates`, so it reaches neither the
matching nor the new-event output for any known set; and its presence
leaves the processing of the rest of the batch unchanged. -/
theorem c6_malformed_skipped :
    (∀ (elements : List RawEvent) (known : List Concert) (c : Concert),
        c ∈ checkToursNew (scrapeConcerts elements) known →
          c.venue ≠ "" ∧ c.date ≠ "") ∧
    (∀ (pre : List RawEvent) (bad : RawEvent) (post : List RawEvent),
        extractField bad.venueName = "" ∨ extractField bad.time = "" →
          scrapeConcerts (pre ++ bad :: post) =
            scrapeConcerts pre ++ scrapeConcerts post) := by
  constructor
  · intro elements known c hc
    have hmem : c ∈ scrapeConcerts elements :=
      (mem_newConcerts.mp (mem_sortConcerts.mp hc)).1
    exact mem_scrapeConcerts_fields hmem
  · intro pre bad post hbad
    rw [scrapeConcerts_append, scrapeConcerts_cons_malformed hbad]

/-- C6 witness: the two parts of the malformed-record theorem applied to
a concrete batch containing one well-formed element, one element with a
missing date, and one more well-formed element. -/
theorem c6_malformed_witness :
    ((⟨"Venue", "City", "2025-05-01"⟩ : Concert).venue ≠ "" ∧
     (⟨"Venue", "City", "2025-05-01"⟩ : Concert).date ≠ "") ∧
    scrapeConcerts ([(⟨some "2025-05-01", some " Venue ", some "City"⟩ : RawEvent)] ++
        (⟨none, some "Lost Venue", some "Salem"⟩ : RawEvent) ::
          [(⟨some "2025-06-01", some "Other", some "Town"⟩ : RawEvent)]) =
      scrapeConcerts [(⟨some "2025-05-01", some " Venue ", some "City"⟩ : RawEvent)] ++
        scrapeConcerts [(⟨some "2025-06-01", some "Other", some "Town"⟩ : RawEvent)] :=
  ⟨c6_malformed_skipped.1 [⟨some "2025-05-01", some " Venue ", some "City"⟩] []
      ⟨"Venue", "City", "2025-05-01"⟩ (by decide),
   c6_malformed_skipped.2 [⟨some "2025-05-01", some " Venue ", some "City"⟩]
      ⟨none, some "Lost Venue", some "Salem"⟩
      [⟨some "2025-06-01", some "Other", some "Town"⟩] (by decide)⟩

theorem newConcerts_empty_known (scraped : List Concert) :
    newConcerts scraped [] = scraped := by
  simp [newConcerts]

/-- A fetched record, identical to a stored one, for the C7 runs. -/
def storedShow : Concert := ⟨"Fox Theatre", "Oakland", "2025-11-02"⟩

/-- C7 counterexample: when the event store read fails, the run is NOT
aborted with the known state preserved: `getConcerts` swallows the error
and returns an empty known set, so the fetched event — identical to one
already stored before the outage — is classified as new, persisted and
announced in that very run. -/
theorem c7_counterexample :
    checkToursRun [storedShow] (Except.error StoreError.unavailable) = [storedShow] := by
  decide

/-- C7 (amended): on a store read failure `getConcerts` returns the empty
list instead of propagating the error, so `checkTours` proceeds with an
empty known set: every fetched record is classified as new and is
persisted and announced again, rather than the run being aborted. -/
theorem c7_store_error_reannounces_all (scraped : List Concert) (e : StoreError)
    (c : Concert) (hc : c ∈ scraped) :
    c ∈ checkToursRun scraped (Except.error e) := by
  show c ∈ sortConcerts (newConcerts scraped (getConcerts (Except.error e)))
  rw [show getConcerts (Except.error e) = [] from rfl, newConcerts_empty_known]
  exact mem_sortConcerts.mpr hc

/-- C7 witness: the amended theorem applied to a concrete one-event fetch
during a store outage. -/
theorem c7_store_error_witness :
    storedShow ∈ checkToursRun [storedShow] (Except.error StoreError.unavailable) :=
  c7_store_error_reannounces_all [storedShow] StoreError.unavailable storedShow
    (by decide)

end GooseTourDates

namespace GooseTourDates

/-- A delivery function for the C8 runs: sending fails exactly for the
venue string "FAIL" and succeeds for every other concert. -/
def sendEx : Concert → Except DeliveryError Unit :=
  fun c => if c.venue == "FAIL" then Except.error DeliveryError.failed else Except.ok ()

/-- First (failing) event of the C8 batch. -/
def failShow : Concert := ⟨"FAIL", "Nowhere", "2025-04-01"⟩

/-- Second event of the C8 batch, whose own delivery would succeed. -/
def okShow : Concert := ⟨"Blue Note", "New York", "2025-04-02"⟩

/-- C8 counterexample: a `DeliveryError` on one event DOES prevent the
remaining events of the batch from being announced: the first send fails
and the loop aborts, so the second event — whose own delivery would have
succeeded — is never announced. -/
theorem c8_counterexample :
    sendEx okShow = Except.ok () ∧
    postConcerts sendEx [failShow, okShow] = ([], some DeliveryError.failed) :=
  ⟨rfl, rfl⟩

/-- C8 (amended): deliveries are NOT independent: the first failing send
aborts the announcement loop, so when every event before `c` in the batch
is delivered successfully and sending `c` fails, exactly the events
before `c` are announced and the events after `c` are never attempted. -/
theorem c8_delivery_error_aborts_batch (send : Concert → Except DeliveryError Unit)
    (pre : List Concert) (c : Concert) (rest : List Concert) (e : DeliveryError)
    (hpre : ∀ p ∈ pre, send p = Except.ok ()) (hc : send c = Except.error e) :
    postConcerts send (pre ++ c :: rest) = (pre, some e) := by
  induction pre with
  | nil => simp [postConcerts, hc]
  | cons p pre ih =>
    have hp : send p = Except.ok () := hpre p (List.mem_cons_self p pre)
    have hrest := ih (fun q hq => hpre q (List.mem_cons_of_mem p hq))
    simp [postConcerts, hp, hrest]

/-- C8 witness: the amended theorem applied to a concrete batch whose
first event is delivered, whose second send fails, and whose third event
is consequently never attempted. -/
theorem c8_aborts_witness :
    postConcerts sendEx ([okShow] ++ failShow ::
        [(⟨"Bowery Ballroom", "New York", "2025-04-03"⟩ : Concert)]) =
      ([okShow], some DeliveryError.failed) :=
  c8_delivery_error_aborts_batch sendEx [okShow] failShow
    [⟨"Bowery Ballroom", "New York", "2025-04-03"⟩] DeliveryError.failed
    (by intro p hp; rcases List.mem_singleton.mp hp with rfl; rfl) rfl

theorem sameUTCDay_eq_false_of_right_none {a b : String}
    (h : parseDate b = none) : sameUTCDay a b = false := by
  unfold sameUTCDay
  rw [h]
  cases parseDate a <;> rfl

/-- C10: a fetched record whose date string does not parse as a valid
calendar date is classified as new by `checkTours` on every run,
regardless of the known set — even when an identical copy is already
stored — because the UTC-day comparison of an Invalid Date never holds;
such a record is therefore persisted and announced again on each run. -/
theorem c10_unparseable_date_always_new (scraped known : List Concert)
    (c : Concert) (hc : c ∈ scraped) (hbad : parseDate c.date = none) :
    c ∈ checkToursRun scraped (Except.ok known) := by
  show c ∈ checkToursNew scraped (getConcerts (Except.ok known))
  rw [show getConcerts (Except.ok known) = known from rfl]
  refine mem_sortConcerts.mpr (mem_newConcerts.mpr ⟨hc, ?_⟩)
  rintro s _ ⟨_, hd⟩
  rw [sameUTCDay_eq_false_of_right_none hbad] at hd
  exact Bool.false_ne_true hd

/-- C10 witness: a record with unparseable date "soon" is classified as
new even though the identical record is already in the known set. -/
theorem c10_unparseable_witness :
    (⟨"Mystery Hall", "Chicago", "soon"⟩ : Concert) ∈
      checkToursRun [(⟨"Mystery Hall", "Chicago", "soon"⟩ : Concert)]
        (Except.ok [(⟨"Mystery Hall", "Chicago", "soon"⟩ : Concert)]) :=
  c10_unparseable_date_always_new
    [(⟨"Mystery Hall", "Chicago", "soon"⟩ : Concert)]
    [(⟨"Mystery Hall", "Chicago", "soon"⟩ : Concert)]
    (⟨"Mystery Hall", "Chicago", "soon"⟩ : Concert)
    (by decide) (by decide)

end GooseTourDates
